import Mathlib

/-!
Verification development for the Itinerary Route Synthesizer of this
repository.  The definitions below are a shallow embedding of

  * `src/mcp_servers/google_maps_server.py`
    (`handle_generate_itinerary_route` and the nested
    `generate_shareable_link` helper), and
  * `src/tools/maps_mcp.py`
    (`maps_itinerary_route`, `maps_generate_shareable_link` — their
    exception-fallback branches, i.e. the behaviour when every network
    call fails).

Python dictionaries are embedded as association lists of `String × PyVal`
so that the presence or absence of a key is faithfully represented.
Python ints are `Int`; the two CPython floats that occur
(`total_distance / 1609.34` and `5.0 + i*2.0`) are modelled exactly over
`ℚ` resp. `Nat` (the latter only ever takes small integral values, where
binary floating point is exact).
-/

namespace ItinMaps

/-- A Python value as it appears in the dict-shaped payloads of the
synthesizer: strings, ints, bools, lists and nested dicts. -/
inductive PyVal where
  | s : String → PyVal
  | i : Int → PyVal
  | b : Bool → PyVal
  | l : List PyVal → PyVal
  | d : List (String × PyVal) → PyVal

/-- Association-list lookup, the embedding of Python `dict[key]` /
`dict.get(key)`: first binding wins. -/
def lookup : List (String × PyVal) → String → Option PyVal
  | [], _ => none
  | (k', v) :: rest, k => if k' = k then some v else lookup rest k

/-- Uppercase hexadecimal digit, as produced by `urllib.parse.quote_plus`. -/
def hexDigitChar (n : Nat) : Char :=
  if n < 10 then Char.ofNat (48 + n) else Char.ofNat (55 + n)

/-- UTF-8 encoding of a code point, byte values as `Nat`. -/
def utf8Bytes (n : Nat) : List Nat :=
  if n < 128 then [n]
  else if n < 2048 then [192 + n / 64, 128 + n % 64]
  else if n < 65536 then [224 + n / 4096, 128 + n / 64 % 64, 128 + n % 64]
  else [240 + n / 262144, 128 + n / 4096 % 64, 128 + n / 64 % 64, 128 + n % 64]

/-- The characters `urllib.parse.quote_plus` leaves unquoted:
ASCII letters, digits, and `_ . - ~`. -/
def quotePlusSafe (c : Char) : Bool :=
  c.isAlphanum || c = '_' || c = '.' || c = '-' || c = '~'

/-- Percent-escape of one byte: `%XX` with uppercase hex. -/
def percentByte (b : Nat) : List Char :=
  ['%', hexDigitChar (b / 16), hexDigitChar (b % 16)]

/-- `quote_plus` on a single character: kept if safe, space becomes `+`,
anything else is percent-encoded per UTF-8 byte. -/
def quotePlusChar (c : Char) : List Char :=
  if quotePlusSafe c then [c]
  else if c = ' ' then ['+']
  else ((utf8Bytes c.toNat).map percentByte).flatten

/-- Embedding of `urllib.parse.quote_plus`. -/
def quote_plus (str : String) : String :=
  ⟨(str.data.map quotePlusChar).flatten⟩

/-- `mode_mapping.get(mode, 'driving')` — the dict maps each of the four
supported modes to itself, so an unrecognized mode falls back to
`"driving"`. -/
def modeParam (mode : String) : String :=
  if mode = "driving" ∨ mode = "walking" ∨ mode = "bicycling" ∨ mode = "transit"
  then mode else "driving"

/-- `base_url` of the deep-link builder. -/
def base_url : String := "https://www.google.com/maps/dir/"

/-- Trailing part of the complete-route deep link (everything between the
encoded locations and the travel-mode value). -/
def linkSuffix : String := "/@?entry=ttu&g_ep=EgoyMDI0MTIwMy4wIKXMDSoASAFQAw%3D%3D&mode="

/-- Embedding of the nested `generate_shareable_link` helper of
`handle_directions` (src/mcp_servers/google_maps_server.py:346-372):
origin, then waypoints, then destination, each `quote_plus`-encoded and
`/`-joined onto the base URL, with a trailing mode parameter. -/
def generate_shareable_link (origin destination : String)
    (waypoints : List String) (mode : String) : String :=
  let locations := [origin] ++ waypoints ++ [destination]
  let encoded := locations.map quote_plus
  base_url ++ String.intercalate "/" encoded ++ linkSuffix ++ modeParam mode

/-- An entry of the `experiences` argument: either a dict (with optional
`location`, `address`, `name` keys — `none` meaning the key is absent) or
any other Python value, which the handler stringifies. -/
inductive Experience where
  | dict (location address name : Option String)
  | raw (str : String)
deriving DecidableEq, Repr

/-- Python truthiness of an optional string: `None` and `""` are falsy. -/
def pyTruthy : Option String → Bool
  | some str => str ≠ ""
  | none => false

/-- Python `a or b` on optional strings: `a` if truthy, else `b`. -/
def pyOr (a b : Option String) : Option String :=
  if pyTruthy a then a else b

/-- The per-experience resolution loop of `handle_generate_itinerary_route`:
`location = exp.get("location") or exp.get("address") or exp.get("name")`,
`name = exp.get("name", location)`, keeping the pair only `if location:`.
A non-dict entry is stringified and used as both location and name. -/
def resolve : Experience → Option (String × String)
  | .dict location address name =>
      match pyOr (pyOr location address) name with
      | some loc => if loc ≠ "" then some (loc, name.getD loc) else none
      | none => none
  | .raw str => if str ≠ "" then some (str, str) else none

/-- One leg of the provider's (Google Directions) response: distance and
duration in both text and raw numeric form. -/
structure PLeg where
  distance_text : String
  distance_value : Int
  duration_text : String
  duration_value : Int
deriving DecidableEq, Repr

/-- One route of the provider's response: its legs and the optional
`waypoint_order` permutation (empty when absent). -/
structure PRoute where
  legs : List PLeg
  waypoint_order : List Nat
deriving DecidableEq, Repr

/-- The arguments of the single `gmaps.directions` call the handler makes. -/
structure DirectionsRequest where
  origin : String
  destination : String
  waypoints : Option (List String)
  optimize_waypoints : Bool
  mode : String
deriving DecidableEq, Repr

/-- Construction of the `gmaps.directions` call:
`destination = waypoints[-1]`,
`waypoints = waypoints[:-1] if len(waypoints) > 1 else None`. -/
def mkDirectionsRequest (start_location : String) (waypoints : List String)
    (optimize : Bool) (mode : String) : DirectionsRequest :=
  { origin := start_location
    destination := waypoints.getLastD ""
    waypoints := if waypoints.length > 1 then some waypoints.dropLast else none
    optimize_waypoints := optimize
    mode := mode }

/-- Round-half-to-even, the rounding CPython uses when formatting a float
with `:.1f` (the division by 1609.34 is modelled exactly over `ℚ`). -/
def roundHalfEven (x : ℚ) : ℤ :=
  let f := ⌊x⌋
  let r := x - f
  if r < 1 / 2 then f
  else if 1 / 2 < r then f + 1
  else if f % 2 = 0 then f else f + 1

/-- `f"{x:.1f}"` for a non-negative value: one digit after the point. -/
def fmt1 (x : ℚ) : String :=
  let t := roundHalfEven (x * 10)
  toString (t / 10) ++ "." ++ toString (t % 10)

/-- `f"{total_distance / 1609.34:.1f} miles" if total_distance > 1609 else
f"{total_distance} meters"` — note the strict `>`. -/
def total_distance_text (dist : Int) : String :=
  if dist > 1609 then fmt1 ((dist : ℚ) / (160934 / 100)) ++ " miles"
  else toString dist ++ " meters"

/-- `f"{d // 3600}h {(d % 3600) // 60}m" if d >= 3600 else f"{d // 60}m"` —
Python `//` and `%` are floor division and floor modulus. -/
def total_duration_text (dur : Int) : String :=
  if dur ≥ 3600 then
    toString (Int.fdiv dur 3600) ++ "h " ++ toString (Int.fdiv (Int.fmod dur 3600) 60) ++ "m"
  else toString (Int.fdiv dur 60) ++ "m"

/-- The per-leg deep link (note: no `g_ep` parameter, unlike the
complete-route link). -/
def leg_link (cur wp mode : String) : String :=
  "https://www.google.com/maps/dir/" ++ quote_plus cur ++ "/" ++ quote_plus wp
    ++ "/@?entry=ttu&mode=" ++ modeParam mode

/-- The happy-path calendar description f-string of the handler. -/
def calendarDescHappy (name cur wp dtext dutext link : String) : String :=
  "Travel to " ++ name ++ "\nFrom: " ++ cur ++ "\nTo: " ++ wp ++ "\nDistance: " ++ dtext
    ++ "\nDuration: " ++ dutext ++ "\nDirections: " ++ link

/-- The fallback calendar description f-string of the handler (used for a
leg whose index is beyond the provider's legs list). -/
def calendarDescFallback (name link : String) : String :=
  "Travel to " ++ name ++ "\nDirections: " ++ link

/-- The dict appended to `legs_info` when `i < len(route["legs"])`. -/
def happyLeg (name cur wp mode : String) (p : PLeg) : List (String × PyVal) :=
  let link := leg_link cur wp mode
  [("experience_name", .s name), ("origin", .s cur), ("destination", .s wp),
   ("distance", .s p.distance_text), ("duration", .s p.duration_text),
   ("distance_value", .i p.distance_value), ("duration_value", .i p.duration_value),
   ("shareable_link", .s link),
   ("calendar_description", .s (calendarDescHappy name cur wp p.distance_text p.duration_text link))]

/-- The dict appended to `legs_info` when the provider's legs list has no
entry at index `i` ("Fallback for missing leg data"). -/
def fallbackLeg (name cur wp mode : String) : List (String × PyVal) :=
  let link := leg_link cur wp mode
  [("experience_name", .s name), ("origin", .s cur), ("destination", .s wp),
   ("shareable_link", .s link),
   ("calendar_description", .s (calendarDescFallback name link))]

/-- The `for i, (waypoint, name) in enumerate(zip(waypoints, experience_names))`
loop: one dict per waypoint, threading `current_origin` and the index into
the provider's legs. -/
def buildLegs (mode : String) (plegs : List PLeg) :
    Nat → String → List (String × String) → List (List (String × PyVal))
  | _, _, [] => []
  | i, cur, (wp, name) :: rest =>
      (match plegs.get? i with
       | some p => happyLeg name cur wp mode p
       | none => fallbackLeg name cur wp mode) :: buildLegs mode plegs (i + 1) wp rest

/-- The complete-route deep link: start location followed by every
waypoint (in caller order), `quote_plus`-encoded and `/`-joined. -/
def complete_route_link_of (start_location : String) (waypoints : List String)
    (mode : String) : String :=
  base_url ++ String.intercalate "/" ((start_location :: waypoints).map quote_plus)
    ++ linkSuffix ++ modeParam mode

/-- The success payload of `handle_generate_itinerary_route`. -/
structure ItineraryOut where
  itinerary_summary : String
  total_distance : String
  total_duration : String
  total_distance_value : Int
  total_duration_value : Int
  start_location : String
  end_location : String
  experience_count : Nat
  legs : List (List (String × PyVal))
  complete_route_link : String
  optimized_order : List Nat
  calendar_master_description : String

/-- Outcome of the handler: a raised `ValueError`, the
`{"found": False, ...}` payload, or the full itinerary payload. -/
inductive HandlerResult where
  | error (msg : String)
  | notFound (msg : String)
  | ok (out : ItineraryOut)

/-- The success payload of the handler, assembled from the first provider
route: leg dicts, exact metric sums over the provider's legs, display
texts, complete-route link and the pass-through `waypoint_order`. -/
def mkItineraryOut (experiences : List Experience) (start : String)
    (resolved : List (String × String)) (mode : String) (route : PRoute) : ItineraryOut :=
  let waypoints := resolved.map Prod.fst
  let names := resolved.map Prod.snd
  let legs := buildLegs mode route.legs 0 start (waypoints.zip names)
  let total_distance := (route.legs.map PLeg.distance_value).sum
  let total_duration := (route.legs.map PLeg.duration_value).sum
  let tdt := total_distance_text total_distance
  let tut := total_duration_text total_duration
  let crl := complete_route_link_of start waypoints mode
  { itinerary_summary := toString experiences.length ++ " experiences planned"
    total_distance := tdt
    total_duration := tut
    total_distance_value := total_distance
    total_duration_value := total_duration
    start_location := start
    end_location := waypoints.getLastD ""
    experience_count := experiences.length
    legs := legs
    complete_route_link := crl
    optimized_order := route.waypoint_order
    calendar_master_description :=
      "Complete Itinerary Route\n" ++ toString experiences.length
        ++ " experiences\nTotal distance: " ++ tdt ++ "\nTotal duration: " ++ tut
        ++ "\nView complete route: " ++ crl }

/-- Embedding of `handle_generate_itinerary_route`
(src/mcp_servers/google_maps_server.py:488-616).  The provider
(`gmaps.directions`) is passed as a function returning the list of routes;
the second component counts how many provider calls were made. -/
def handle_generate_itinerary_route
    (provider : DirectionsRequest → List PRoute)
    (experiences : List Experience) (start_location : Option String)
    (mode : String) (optimize : Bool) : HandlerResult × Nat :=
  if experiences.isEmpty || !pyTruthy start_location then
    (.error "experiences and start_location parameters are required", 0)
  else
    let resolved := experiences.filterMap resolve
    let waypoints := resolved.map Prod.fst
    if waypoints.isEmpty then
      (.error "No valid locations found in experiences", 0)
    else
      let start := start_location.getD ""
      match provider (mkDirectionsRequest start waypoints optimize mode) with
      | [] => (.notFound "No route found", 1)
      | route :: _ => (.ok (mkItineraryOut experiences start resolved mode route), 1)

/-- Python `str.replace` for a single-character pattern: each occurrence
of the character is substituted independently. -/
def replaceChar (c : Char) (r : List Char) (str : String) : String :=
  ⟨(str.data.map fun x => if x = c then r else [x]).flatten⟩

/-- The ad-hoc encoding of the fallback branch of
`maps_generate_shareable_link` (src/tools/maps_mcp.py:69-72):
`s.replace(" ", "+").replace(",", "%2C")` — both patterns are single
characters, so per-character substitution is exact. -/
def mcpFallbackEncode (str : String) : String :=
  replaceChar ',' ['%', '2', 'C'] (replaceChar ' ' ['+'] str)

/-- The link returned by `maps_generate_shareable_link` when its network
call fails (the waypoints argument is ignored by this branch). -/
def maps_generate_shareable_link_fallback (origin destination : String) : String :=
  "https://www.google.com/maps/dir/" ++ mcpFallbackEncode origin ++ "/"
    ++ mcpFallbackEncode destination ++ "/"

/-- `distance_val = 5.0 + i * 2.0` of the `maps_itinerary_route` fallback
loop.  The float is exact here (small integral values), so the estimate is
modelled as a natural number of miles. -/
def estDistanceVal (i : Nat) : Nat := 5 + i * 2

/-- `duration_val = 15 + i * 8` of the `maps_itinerary_route` fallback
loop (a Python int). -/
def estDurationVal (i : Nat) : Nat := 15 + i * 8

/-- `str()` of a float known to hold a whole number: `"n.0"`.  Used for the
leg distances (`5.0`, `7.0`, ...) and the `:.1f`-formatted total, both of
which are always integral. -/
def wholeFloatStr (n : Nat) : String := toString n ++ ".0"

/-- One dict appended to `legs` by the fallback loop of
`maps_itinerary_route` (src/tools/maps_mcp.py:100-117).  Note: no
`is_estimated` key and no `calendar_description` key exist here. -/
def mcpFallbackLeg (i : Nat) (cur dest : String) : List (String × PyVal) :=
  [("origin", .s cur), ("destination", .s dest),
   ("distance", .s (wholeFloatStr (estDistanceVal i) ++ " miles")),
   ("duration", .s (toString (estDurationVal i) ++ " mins")),
   ("shareable_link", .s (maps_generate_shareable_link_fallback cur dest))]

/-- The fallback loop itself: index and `current_location` are threaded
through the destinations. -/
def mcpFallbackLegs : Nat → String → List String → List (List (String × PyVal))
  | _, _, [] => []
  | i, cur, dest :: rest => mcpFallbackLeg i cur dest :: mcpFallbackLegs (i + 1) dest rest

/-- The dict returned by the `except` branch of `maps_itinerary_route`
(src/tools/maps_mcp.py:93-129), in the world where every network call
fails (so the nested link generations also take their fallback branches).
The running totals of the loop are the sums of the per-index estimates.
Note: degradation is flagged as `"fallback": True`; there is no
`is_degraded` key and the legs carry no `is_estimated` key.
The source indexes `destinations[-1]` for the complete link, which raises
on an empty list; this embedding is used only for non-empty
`destinations`. -/
def maps_itinerary_route_fallback (origin : String) (destinations : List String)
    (mode : String) (errmsg : String) : List (String × PyVal) :=
  let n := destinations.length
  let total_distance := ((List.range n).map estDistanceVal).sum
  let total_duration := ((List.range n).map estDurationVal).sum
  [("origin", .s origin),
   ("destinations", .l (destinations.map PyVal.s)),
   ("mode", .s mode),
   ("total_distance", .s (wholeFloatStr total_distance ++ " miles")),
   ("total_duration", .s (toString total_duration ++ " mins")),
   ("legs", .l ((mcpFallbackLegs 0 origin destinations).map PyVal.d)),
   ("complete_route_link",
     .s (maps_generate_shareable_link_fallback origin (destinations.getLastD ""))),
   ("error", .s errmsg),
   ("fallback", .b true)]

/-! Extractors used to state the claims (they read the dict-shaped payloads
back into plain values so that the statements are decidable). -/

/-- Reads a `PyVal` back as a dict, when it is one. -/
def asDict : PyVal → Option (List (String × PyVal))
  | .d kvs => some kvs
  | _ => none

/-- The legs of a dict-shaped route payload. -/
def routeLegs (route : List (String × PyVal)) : List (List (String × PyVal)) :=
  match lookup route "legs" with
  | some (.l vs) => vs.filterMap asDict
  | _ => []

/-- The legs of a handler result (empty unless the handler succeeded). -/
def resultLegs : HandlerResult → List (List (String × PyVal))
  | .ok out => out.legs
  | _ => []

/-- The `optimized_order` of a handler result. -/
def resultOptimizedOrder : HandlerResult → List Nat
  | .ok out => out.optimized_order
  | _ => []

/-- The `end_location` of a handler result. -/
def resultEndLocation : HandlerResult → String
  | .ok out => out.end_location
  | _ => ""

/-- String field of a leg dict, defaulting to `""`. -/
def legStr (leg : List (String × PyVal)) (key : String) : String :=
  match lookup leg key with
  | some (.s v) => v
  | _ => ""

/-- Int field of a leg dict, defaulting to `0`. -/
def legInt (leg : List (String × PyVal)) (key : String) : Int :=
  match lookup leg key with
  | some (.i v) => v
  | _ => 0

/-- Whether a dict carries the given key at all. -/
def legHasKey (leg : List (String × PyVal)) (key : String) : Bool :=
  (lookup leg key).isSome

/-! Spec-side renderings of the aggregate display texts, written from the
words of the spec (§4.4) for comparison with the source functions. -/

/-- The distance rendering as the spec words it: distances of at least
1609 meters render in miles to one decimal place, below that in meters. -/
def specTotalDistanceText (dist : Int) : String :=
  if dist ≥ 1609 then fmt1 ((dist : ℚ) / (160934 / 100)) ++ " miles"
  else toString dist ++ " meters"

/-- The distance rendering amended to the source's strict threshold:
only distances strictly greater than 1609 meters render in miles. -/
def amendedTotalDistanceText (dist : Int) : String :=
  if dist ≤ 1609 then toString dist ++ " meters"
  else fmt1 ((dist : ℚ) / (160934 / 100)) ++ " miles"

/-- The duration rendering as the spec words it: durations below 3600
seconds render as minutes rounded down, otherwise as hours and minutes. -/
def specTotalDurationText (dur : Int) : String :=
  if dur < 3600 then toString (Int.fdiv dur 60) ++ "m"
  else toString (Int.fdiv dur 3600) ++ "h " ++ toString (Int.fdiv (Int.fmod dur 3600) 60) ++ "m"

/-- Characters allowed in the percent-encoded path segments produced by
`quote_plus`: ASCII letters and digits, the unreserved marks it keeps,
`+` for spaces and `%` for escapes. -/
def urlSafeChar (c : Char) : Bool :=
  c.isAlphanum || c = '+' || c = '%' || c = '_' || c = '.' || c = '-' || c = '~'

/-- The single formatting rule the spec states for every leg's
`calendar_description`, written from the claim's words with the verb as a
parameter. -/
def specCalendarDescriptionRule
    (verb name origin destination distance_text duration_text shareable_link : String) :
    String :=
  verb ++ " " ++ name ++ "\nFrom: " ++ origin ++ "\nTo: " ++ destination
    ++ "\nDistance: " ++ distance_text ++ "\nDuration: " ++ duration_text
    ++ "\nDirections: " ++ shareable_link

/-- Whether a leg dict's `calendar_description` equals the spec's single
formatting rule applied to that leg's own fields (absent fields read as
`""`). -/
def legFollowsSpecRule (leg : List (String × PyVal)) : Bool :=
  legStr leg "calendar_description" ==
    specCalendarDescriptionRule "Travel to" (legStr leg "experience_name")
      (legStr leg "origin") (legStr leg "destination") (legStr leg "distance")
      (legStr leg "duration") (legStr leg "shareable_link")

/-- The chaining invariant of a leg sequence: the first leg starts at the
given location, and every further leg starts where the previous one
ended. -/
def legsChained : String → List (List (String × PyVal)) → Prop
  | _, [] => True
  | cur, leg :: rest =>
      legStr leg "origin" = cur ∧ legsChained (legStr leg "destination") rest

end ItinMaps

namespace ItinMaps

lemma handler_ok (provider : DirectionsRequest → List PRoute)
    (experiences : List Experience) (start_location : Option String)
    (mode : String) (optimize : Bool) (route : PRoute) (rest : List PRoute)
    (h0 : experiences.isEmpty = false)
    (h1 : pyTruthy start_location = true)
    (hw : ((experiences.filterMap resolve).map Prod.fst).isEmpty = false)
    (hp : provider (mkDirectionsRequest (start_location.getD "")
        ((experiences.filterMap resolve).map Prod.fst) optimize mode) = route :: rest) :
    handle_generate_itinerary_route provider experiences start_location mode optimize =
      (.ok (mkItineraryOut experiences (start_location.getD "")
        (experiences.filterMap resolve) mode route), 1) := by
  simp [handle_generate_itinerary_route, h0, h1, hw, hp]

lemma buildLegs_length (mode : String) (plegs : List PLeg) :
    ∀ (pairs : List (String × String)) (i : Nat) (cur : String),
    (buildLegs mode plegs i cur pairs).length = pairs.length := by
  intro pairs
  induction pairs with
  | nil => intro i cur; rfl
  | cons p rest ih =>
      intro i cur
      obtain ⟨wp, name⟩ := p
      simp [buildLegs, ih]

lemma legStr_happyLeg (name cur wp mode : String) (p : PLeg) :
    legStr (happyLeg name cur wp mode p) "origin" = cur ∧
    legStr (happyLeg name cur wp mode p) "destination" = wp := by
  constructor <;> simp [legStr, happyLeg, lookup]

lemma legStr_fallbackLeg (name cur wp mode : String) :
    legStr (fallbackLeg name cur wp mode) "origin" = cur ∧
    legStr (fallbackLeg name cur wp mode) "destination" = wp := by
  constructor <;> simp [legStr, fallbackLeg, lookup]

lemma buildLegs_chained (mode : String) (plegs : List PLeg) :
    ∀ (pairs : List (String × String)) (i : Nat) (cur : String),
    legsChained cur (buildLegs mode plegs i cur pairs) := by
  intro pairs
  induction pairs with
  | nil => intro i cur; exact trivial
  | cons p rest ih =>
      intro i cur
      obtain ⟨wp, name⟩ := p
      show legsChained cur (buildLegs mode plegs i cur ((wp, name) :: rest))
      simp only [buildLegs]
      cases hget : plegs.get? i with
      | none =>
          exact ⟨(legStr_fallbackLeg name cur wp mode).1,
            (legStr_fallbackLeg name cur wp mode).2 ▸ ih (i + 1) wp⟩
      | some pl =>
          exact ⟨(legStr_happyLeg name cur wp mode pl).1,
            (legStr_happyLeg name cur wp mode pl).2 ▸ ih (i + 1) wp⟩

lemma filterMap_asDict_map (ls : List (List (String × PyVal))) :
    ls.filterMap (asDict ∘ PyVal.d) = ls := by
  induction ls with
  | nil => rfl
  | cons x xs ih => simp [asDict, Function.comp, ih]

lemma routeLegs_mcpFallback (origin : String) (ds : List String) (mode errmsg : String) :
    routeLegs (maps_itinerary_route_fallback origin ds mode errmsg) =
      mcpFallbackLegs 0 origin ds := by
  simp [routeLegs, maps_itinerary_route_fallback, lookup, filterMap_asDict_map]

lemma mcpFallbackLegs_length :
    ∀ (ds : List String) (i : Nat) (cur : String),
    (mcpFallbackLegs i cur ds).length = ds.length := by
  intro ds
  induction ds with
  | nil => intro i cur; rfl
  | cons d rest ih => intro i cur; simp [mcpFallbackLegs, ih]

lemma legStr_mcpFallbackLeg (i : Nat) (cur dest : String) :
    legStr (mcpFallbackLeg i cur dest) "origin" = cur ∧
    legStr (mcpFallbackLeg i cur dest) "destination" = dest := by
  constructor <;> simp [legStr, mcpFallbackLeg, lookup]

lemma mcpFallbackLegs_chained :
    ∀ (ds : List String) (i : Nat) (cur : String),
    legsChained cur (mcpFallbackLegs i cur ds) := by
  intro ds
  induction ds with
  | nil => intro i cur; exact trivial
  | cons d rest ih =>
      intro i cur
      show legsChained cur (mcpFallbackLegs i cur (d :: rest))
      simp only [mcpFallbackLegs]
      exact ⟨(legStr_mcpFallbackLeg i cur d).1,
        (legStr_mcpFallbackLeg i cur d).2 ▸ ih (i + 1) d⟩

lemma legInt_happyLeg (name cur wp mode : String) (p : PLeg) :
    legInt (happyLeg name cur wp mode p) "distance_value" = p.distance_value ∧
    legInt (happyLeg name cur wp mode p) "duration_value" = p.duration_value := by
  constructor <;> simp [legInt, happyLeg, lookup]

lemma legInt_fallbackLeg (name cur wp mode : String) :
    legInt (fallbackLeg name cur wp mode) "distance_value" = 0 ∧
    legInt (fallbackLeg name cur wp mode) "duration_value" = 0 := by
  constructor <;> simp [legInt, fallbackLeg, lookup]

lemma buildLegs_sums (mode : String) (plegs : List PLeg) :
    ∀ (pairs : List (String × String)) (i : Nat) (cur : String),
    plegs.length ≤ i + pairs.length →
    ((buildLegs mode plegs i cur pairs).map (fun leg => legInt leg "distance_value")).sum
      = ((plegs.drop i).map PLeg.distance_value).sum ∧
    ((buildLegs mode plegs i cur pairs).map (fun leg => legInt leg "duration_value")).sum
      = ((plegs.drop i).map PLeg.duration_value).sum := by
  intro pairs
  induction pairs with
  | nil =>
      intro i cur h
      simp only [List.length_nil, Nat.add_zero] at h
      rw [List.drop_eq_nil_of_le h]
      exact ⟨rfl, rfl⟩
  | cons p rest ih =>
      intro i cur h
      obtain ⟨wp, name⟩ := p
      simp only [buildLegs]
      cases hget : plegs.get? i with
      | none =>
          have hlen : plegs.length ≤ i := List.get?_eq_none.mp hget
          have hih := ih (i + 1) wp (by omega)
          rw [List.drop_eq_nil_of_le hlen] at *
          rw [List.drop_eq_nil_of_le (by omega)] at hih
          simp only [List.map_cons, List.sum_cons,
            (legInt_fallbackLeg name cur wp mode).1, (legInt_fallbackLeg name cur wp mode).2]
          exact ⟨by rw [hih.1]; simp, by rw [hih.2]; simp⟩
      | some pl =>
          obtain ⟨hi, hgeteq⟩ := List.get?_eq_some.mp hget
          have hih := ih (i + 1) wp (by simp at h ⊢; omega)
          have hdrop : plegs.drop i = plegs.get ⟨i, hi⟩ :: plegs.drop (i + 1) := by
            rw [List.drop_eq_getElem_cons hi]
            rfl
          rw [hdrop, hgeteq]
          simp only [List.map_cons, List.sum_cons,
            (legInt_happyLeg name cur wp mode pl).1, (legInt_happyLeg name cur wp mode pl).2]
          exact ⟨by rw [hih.1], by rw [hih.2]⟩

/-- C6: a request with an empty experience list, an untruthy (absent or
empty) start location, or no resolvable experience location is rejected
with a `ValueError` before any provider call: the handler returns an
error and the provider-call count is zero. -/
theorem c6_invalid_request_fast_fail
    (provider : DirectionsRequest → List PRoute)
    (experiences : List Experience) (start_location : Option String)
    (mode : String) (optimize : Bool)
    (h : experiences = [] ∨ pyTruthy start_location = false ∨
         experiences.filterMap resolve = []) :
    (∃ msg, (handle_generate_itinerary_route provider experiences start_location
        mode optimize).1 = .error msg) ∧
    (handle_generate_itinerary_route provider experiences start_location
        mode optimize).2 = 0 := by
  unfold handle_generate_itinerary_route
  by_cases h1 : (experiences.isEmpty || !pyTruthy start_location) = true
  · rw [if_pos h1]
    exact ⟨⟨_, rfl⟩, rfl⟩
  · rw [if_neg h1]
    rcases h with h | h | h
    · exact absurd (by simp [h]) h1
    · exact absurd (by simp [h]) h1
    · have h2 : ((experiences.filterMap resolve).map Prod.fst).isEmpty = true := by
        simp [h]
      simp only [h2, if_true]
      exact ⟨⟨_, rfl⟩, trivial⟩

/-- Witness for C6 at a concrete invalid input (empty experience list). -/
theorem c6_witness :
    (∃ msg, (handle_generate_itinerary_route (fun _ => []) []
        (some "Union Square, San Francisco, CA") "driving" true).1 = .error msg) ∧
    (handle_generate_itinerary_route (fun _ => []) []
        (some "Union Square, San Francisco, CA") "driving" true).2 = 0 :=
  c6_invalid_request_fast_fail (fun _ => []) []
    (some "Union Square, San Francisco, CA") "driving" true (Or.inl rfl)

/-- C7 counterexample: at exactly 1609 meters the source renders meters
(`total_distance > 1609` is strict), while the claim's rule (≥ 1609)
renders miles. -/
theorem c7_counterexample :
    total_distance_text 1609 = "1609 meters" ∧
    specTotalDistanceText 1609 = "1.0 miles" ∧
    total_distance_text 1609 ≠ specTotalDistanceText 1609 := by
  have hx : ((1609 : Int) : ℚ) / (160934 / 100) * 10 = 804500 / 80467 := by
    norm_num
  have hf : ⌊(804500 / 80467 : ℚ)⌋ = 9 := by
    rw [Int.floor_eq_iff]
    norm_num
  have hre : roundHalfEven (((1609 : Int) : ℚ) / (160934 / 100) * 10) = 10 := by
    simp only [roundHalfEven, hx, hf]
    rw [if_neg (by norm_num), if_pos (by norm_num)]
    norm_num
  have hspec : specTotalDistanceText 1609 = "1.0 miles" := by
    unfold specTotalDistanceText
    rw [if_pos (by decide)]
    unfold fmt1
    rw [hre]
    decide
  refine ⟨by decide, hspec, ?_⟩
  rw [hspec]
  decide

/-- C7 (amended): for every non-negative total, the source's distance text
renders miles to one decimal only strictly above 1609 meters and meters at
or below it, and the duration text follows the spec's rule exactly
(minutes rounded down below 3600 seconds, else "Hh Mm"). -/
theorem c7_display_texts (dist dur : Int) (hd : 0 ≤ dist) (hs : 0 ≤ dur) :
    total_distance_text dist = amendedTotalDistanceText dist ∧
    total_duration_text dur = specTotalDurationText dur := by
  constructor
  · unfold total_distance_text amendedTotalDistanceText
    by_cases h : dist ≤ 1609
    · rw [if_neg (by omega), if_pos h]
    · rw [if_pos (by omega), if_neg h]
  · unfold total_duration_text specTotalDurationText
    by_cases h : dur < 3600
    · rw [if_neg (by omega), if_pos h]
    · rw [if_pos (by omega), if_neg h]

lemma char_toNat_lt_unicode (c : Char) : c.toNat < 1114112 := by
  have h := c.valid
  unfold UInt32.isValidChar Nat.isValidChar at h
  rcases h with h | h
  · exact Nat.lt_trans h (by norm_num)
  · exact h.2

lemma utf8Bytes_lt_256 (n : Nat) (h : n < 1114112) : ∀ b ∈ utf8Bytes n, b < 256 := by
  intro b hb
  unfold utf8Bytes at hb
  split_ifs at hb with h1 h2 h3
  · simp only [List.mem_singleton] at hb
    omega
  · simp only [List.mem_cons, List.not_mem_nil, or_false] at hb
    have hd : n / 64 < 32 := Nat.div_lt_of_lt_mul (by omega)
    have hm : n % 64 < 64 := Nat.mod_lt _ (by norm_num)
    rcases hb with rfl | rfl
    · omega
    · omega
  · simp only [List.mem_cons, List.not_mem_nil, or_false] at hb
    have hd : n / 4096 < 16 := Nat.div_lt_of_lt_mul (by omega)
    have hm1 : n / 64 % 64 < 64 := Nat.mod_lt _ (by norm_num)
    have hm : n % 64 < 64 := Nat.mod_lt _ (by norm_num)
    rcases hb with rfl | rfl | rfl
    · omega
    · omega
    · omega
  · simp only [List.mem_cons, List.not_mem_nil, or_false] at hb
    have hd : n / 262144 < 5 := Nat.div_lt_of_lt_mul (by omega)
    have hm2 : n / 4096 % 64 < 64 := Nat.mod_lt _ (by norm_num)
    have hm1 : n / 64 % 64 < 64 := Nat.mod_lt _ (by norm_num)
    have hm : n % 64 < 64 := Nat.mod_lt _ (by norm_num)
    rcases hb with rfl | rfl | rfl | rfl
    · omega
    · omega
    · omega
    · omega

lemma hexDigitChar_safe (n : Nat) (h : n < 16) : urlSafeChar (hexDigitChar n) = true := by
  interval_cases n <;> decide

lemma quotePlusChar_safe (c : Char) : ∀ x ∈ quotePlusChar c, urlSafeChar x = true := by
  intro x hx
  unfold quotePlusChar at hx
  split_ifs at hx with h1 h2
  · simp only [List.mem_singleton] at hx
    subst hx
    simp only [quotePlusSafe, Bool.or_eq_true] at h1
    simp only [urlSafeChar, Bool.or_eq_true]
    tauto
  · simp only [List.mem_singleton] at hx
    subst hx
    decide
  · simp only [List.mem_flatten, List.mem_map] at hx
    obtain ⟨l, ⟨b, hb, rfl⟩, hxl⟩ := hx
    have hb256 : b < 256 := utf8Bytes_lt_256 _ (char_toNat_lt_unicode c) b hb
    unfold percentByte at hxl
    simp only [List.mem_cons, List.not_mem_nil, or_false] at hxl
    rcases hxl with rfl | rfl | rfl
    · decide
    · exact hexDigitChar_safe _ (Nat.div_lt_of_lt_mul (by omega))
    · exact hexDigitChar_safe _ (Nat.mod_lt _ (by norm_num))

lemma quote_plus_safe (str : String) : ∀ c ∈ (quote_plus str).data, urlSafeChar c = true := by
  intro c hc
  have hc' : c ∈ (str.data.map quotePlusChar).flatten := hc
  simp only [List.mem_flatten, List.mem_map] at hc'
  obtain ⟨l, ⟨c0, _, rfl⟩, hcl⟩ := hc'
  exact quotePlusChar_safe c0 c hcl

lemma modeParam_mem (mode : String) :
    modeParam mode = "driving" ∨ modeParam mode = "walking" ∨
    modeParam mode = "bicycling" ∨ modeParam mode = "transit" := by
  unfold modeParam
  split_ifs with h
  · rcases h with h | h | h | h <;> simp [h]
  · left
    rfl

lemma modeParam_unknown (mode : String) (h1 : mode ≠ "driving") (h2 : mode ≠ "walking")
    (h3 : mode ≠ "bicycling") (h4 : mode ≠ "transit") : modeParam mode = "driving" := by
  unfold modeParam
  rw [if_neg]
  tauto

/-- C8: the deep-link builder is a pure total function; for any origin,
destination, waypoints and mode it yields a link on the navigation base
URL, each location is rendered with only URL-safe percent-encoded
characters, the mode parameter is one of the four recognized values, and
an unrecognized mode falls back to the driving parameter. -/
theorem c8_link_builder_total (origin destination mode : String) (waypoints : List String)
    (h1 : origin ≠ "") (h2 : destination ≠ "") :
    (∃ rest, generate_shareable_link origin destination waypoints mode = base_url ++ rest) ∧
    (∀ loc ∈ [origin] ++ waypoints ++ [destination],
      ∀ c ∈ (quote_plus loc).data, urlSafeChar c = true) ∧
    (modeParam mode = "driving" ∨ modeParam mode = "walking" ∨
      modeParam mode = "bicycling" ∨ modeParam mode = "transit") ∧
    ((mode ≠ "driving" ∧ mode ≠ "walking" ∧ mode ≠ "bicycling" ∧ mode ≠ "transit") →
      ∃ pre, generate_shareable_link origin destination waypoints mode = pre ++ "mode=driving") := by
  refine ⟨?_, ?_, modeParam_mem mode, ?_⟩
  · refine ⟨String.intercalate "/" (([origin] ++ waypoints ++ [destination]).map quote_plus)
      ++ (linkSuffix ++ modeParam mode), ?_⟩
    simp only [generate_shareable_link]
    simp only [String.append_assoc]
  · intro loc _ c hc
    exact quote_plus_safe loc c hc
  · rintro ⟨k1, k2, k3, k4⟩
    have hm := modeParam_unknown mode k1 k2 k3 k4
    have hsplit : linkSuffix =
        "/@?entry=ttu&g_ep=EgoyMDI0MTIwMy4wIKXMDSoASAFQAw%3D%3D&" ++ "mode=" := rfl
    refine ⟨base_url ++
      (String.intercalate "/" (([origin] ++ waypoints ++ [destination]).map quote_plus)
        ++ "/@?entry=ttu&g_ep=EgoyMDI0MTIwMy4wIKXMDSoASAFQAw%3D%3D&"), ?_⟩
    simp only [generate_shareable_link]
    rw [hm, hsplit]
    simp only [String.append_assoc]
    rfl

/-- Witness for C8 at a concrete multi-stop request with an unrecognized
mode string. -/
theorem c8_witness :
    (∃ rest, generate_shareable_link "Union Square, San Francisco, CA"
      "Fisherman's Wharf" ["Golden Gate Bridge", "Alcatraz Island"] "hoverboard" =
      base_url ++ rest) ∧
    (∀ loc ∈ ["Union Square, San Francisco, CA"] ++ ["Golden Gate Bridge", "Alcatraz Island"]
        ++ ["Fisherman's Wharf"],
      ∀ c ∈ (quote_plus loc).data, urlSafeChar c = true) ∧
    (modeParam "hoverboard" = "driving" ∨ modeParam "hoverboard" = "walking" ∨
      modeParam "hoverboard" = "bicycling" ∨ modeParam "hoverboard" = "transit") ∧
    (("hoverboard" : String) ≠ "driving" ∧ ("hoverboard" : String) ≠ "walking" ∧
        ("hoverboard" : String) ≠ "bicycling" ∧ ("hoverboard" : String) ≠ "transit" →
      ∃ pre, generate_shareable_link "Union Square, San Francisco, CA"
        "Fisherman's Wharf" ["Golden Gate Bridge", "Alcatraz Island"] "hoverboard" =
        pre ++ "mode=driving") :=
  c8_link_builder_total "Union Square, San Francisco, CA" "Fisherman's Wharf"
    "hoverboard" ["Golden Gate Bridge", "Alcatraz Island"] (by decide) (by decide)

/-- Witness for C7 at concrete totals (2000 m, 3700 s). -/
theorem c7_witness :
    (0 ≤ (2000 : Int)) ∧ (0 ≤ (3700 : Int)) ∧
    (total_distance_text 2000 = amendedTotalDistanceText 2000 ∧
     total_duration_text 3700 = specTotalDurationText 3700) :=
  ⟨by decide, by decide, c7_display_texts 2000 3700 (by decide) (by decide)⟩

/-- C3 counterexample: a valid one-experience request on which the
provider returns an empty route list yields the `{"found": False}`
payload with zero legs — not the claimed one leg per resolvable
experience (and the wrapper does not fall back on such a response, since
no exception is raised). -/
theorem c3_counterexample :
    (handle_generate_itinerary_route (fun _ => []) [.raw "Golden Gate Bridge"]
        (some "Union Square") "driving" true).1 = .notFound "No route found" ∧
    (resultLegs (handle_generate_itinerary_route (fun _ => []) [.raw "Golden Gate Bridge"]
        (some "Union Square") "driving" true).1).length = 0 ∧
    ([Experience.raw "Golden Gate Bridge"].filterMap resolve).length = 1 := by
  refine ⟨rfl, rfl, rfl⟩

/-- C3 (amended): for a valid request with `n` resolvable experiences whose provider
call returns a route, the output has exactly `n` legs, leg 0 starts at the
start location, and each leg starts where the previous one ended; the
wrapper's degraded path satisfies the same count and chaining invariant. -/
theorem c3_leg_count_and_chaining
    (provider : DirectionsRequest → List PRoute)
    (experiences : List Experience) (start_location : Option String)
    (mode : String) (optimize : Bool) (route : PRoute) (rest : List PRoute)
    (h0 : experiences ≠ [])
    (h1 : pyTruthy start_location = true)
    (hw : experiences.filterMap resolve ≠ [])
    (hp : provider (mkDirectionsRequest (start_location.getD "")
        ((experiences.filterMap resolve).map Prod.fst) optimize mode) = route :: rest) :
    (∃ out, (handle_generate_itinerary_route provider experiences start_location
        mode optimize).1 = .ok out ∧
      out.legs.length = (experiences.filterMap resolve).length ∧
      legsChained (start_location.getD "") out.legs) ∧
    (∀ (origin m e : String) (ds : List String),
      (routeLegs (maps_itinerary_route_fallback origin ds m e)).length = ds.length ∧
      legsChained origin (routeLegs (maps_itinerary_route_fallback origin ds m e))) := by
  constructor
  · have h0' : experiences.isEmpty = false := by simp [h0]
    have hw' : ((experiences.filterMap resolve).map Prod.fst).isEmpty = false := by
      simp [hw]
    rw [handler_ok provider experiences start_location mode optimize route rest h0' h1 hw' hp]
    refine ⟨_, rfl, ?_, ?_⟩
    · simp [mkItineraryOut, buildLegs_length]
    · simp only [mkItineraryOut]
      exact buildLegs_chained mode route.legs _ 0 (start_location.getD "")
  · intro origin m e ds
    rw [routeLegs_mcpFallback]
    exact ⟨mcpFallbackLegs_length ds 0 origin, mcpFallbackLegs_chained ds 0 origin⟩

/-- C4: whenever the provider returns at most as many legs as there are
waypoints (the equal and the truncated case — the only ones the request
shape can produce), the output's total distance and duration raw values
equal the exact sums of the corresponding raw values of the returned legs
(fallback legs carry no metric keys and contribute zero). -/
theorem c4_total_sums
    (provider : DirectionsRequest → List PRoute)
    (experiences : List Experience) (start_location : Option String)
    (mode : String) (optimize : Bool) (route : PRoute) (rest : List PRoute)
    (h0 : experiences ≠ [])
    (h1 : pyTruthy start_location = true)
    (hw : experiences.filterMap resolve ≠ [])
    (hp : provider (mkDirectionsRequest (start_location.getD "")
        ((experiences.filterMap resolve).map Prod.fst) optimize mode) = route :: rest)
    (hlen : route.legs.length ≤ (experiences.filterMap resolve).length) :
    ∃ out, (handle_generate_itinerary_route provider experiences start_location
        mode optimize).1 = .ok out ∧
      out.total_distance_value = (out.legs.map (fun leg => legInt leg "distance_value")).sum ∧
      out.total_duration_value = (out.legs.map (fun leg => legInt leg "duration_value")).sum := by
  have h0' : experiences.isEmpty = false := by simp [h0]
  have hw' : ((experiences.filterMap resolve).map Prod.fst).isEmpty = false := by simp [hw]
  rw [handler_ok provider experiences start_location mode optimize route rest h0' h1 hw' hp]
  refine ⟨_, rfl, ?_⟩
  have hpairs : (((experiences.filterMap resolve).map Prod.fst).zip
      ((experiences.filterMap resolve).map Prod.snd)).length =
      (experiences.filterMap resolve).length := by
    simp
  have hsum := buildLegs_sums mode route.legs
    (((experiences.filterMap resolve).map Prod.fst).zip
      ((experiences.filterMap resolve).map Prod.snd)) 0 (start_location.getD "")
    (by omega)
  simp only [List.drop_zero] at hsum
  simp only [mkItineraryOut]
  exact ⟨hsum.1.symm, hsum.2.symm⟩

/-- Witness for C4 at the spec's scenario: three provider legs with
distances 1000, 2000, 1500 m and durations 600, 900, 500 s. -/
theorem c4_witness :
    ∃ out, (handle_generate_itinerary_route
        (fun _ => [⟨[⟨"1.0 km", 1000, "10 mins", 600⟩, ⟨"2.0 km", 2000, "15 mins", 900⟩,
          ⟨"1.5 km", 1500, "8 mins", 500⟩], []⟩])
        [.raw "Golden Gate Bridge", .raw "Alcatraz Island", .raw "Fisherman's Wharf"]
        (some "Union Square, San Francisco, CA") "driving" true).1 = .ok out ∧
      out.total_distance_value = (out.legs.map (fun leg => legInt leg "distance_value")).sum ∧
      out.total_duration_value = (out.legs.map (fun leg => legInt leg "duration_value")).sum :=
  c4_total_sums
    (fun _ => [⟨[⟨"1.0 km", 1000, "10 mins", 600⟩, ⟨"2.0 km", 2000, "15 mins", 900⟩,
      ⟨"1.5 km", 1500, "8 mins", 500⟩], []⟩])
    [.raw "Golden Gate Bridge", .raw "Alcatraz Island", .raw "Fisherman's Wharf"]
    (some "Union Square, San Francisco, CA") "driving" true
    ⟨[⟨"1.0 km", 1000, "10 mins", 600⟩, ⟨"2.0 km", 2000, "15 mins", 900⟩,
      ⟨"1.5 km", 1500, "8 mins", 500⟩], []⟩ []
    (by decide) (by decide) (by decide) rfl (by decide)

/-- C10: the last resolvable experience's location is always passed to the
provider as the fixed `destination` (the interior-waypoint list is the
list with the last element dropped), and the returned `end_location`
equals that location for every provider route — also when optimization
was requested and the route carries a non-trivial `waypoint_order`. -/
theorem c10_final_destination_fixed
    (provider : DirectionsRequest → List PRoute)
    (experiences : List Experience) (start_location : Option String)
    (mode : String) (optimize : Bool) (route : PRoute) (rest : List PRoute)
    (h0 : experiences ≠ [])
    (h1 : pyTruthy start_location = true)
    (hw : experiences.filterMap resolve ≠ [])
    (hp : provider (mkDirectionsRequest (start_location.getD "")
        ((experiences.filterMap resolve).map Prod.fst) optimize mode) = route :: rest) :
    (mkDirectionsRequest (start_location.getD "")
        ((experiences.filterMap resolve).map Prod.fst) optimize mode).destination
      = ((experiences.filterMap resolve).map Prod.fst).getLastD "" ∧
    (mkDirectionsRequest (start_location.getD "")
        ((experiences.filterMap resolve).map Prod.fst) optimize mode).waypoints
      = (if ((experiences.filterMap resolve).map Prod.fst).length > 1
         then some ((experiences.filterMap resolve).map Prod.fst).dropLast else none) ∧
    resultEndLocation (handle_generate_itinerary_route provider experiences
        start_location mode optimize).1
      = ((experiences.filterMap resolve).map Prod.fst).getLastD "" := by
  have h0' : experiences.isEmpty = false := by simp [h0]
  have hw' : ((experiences.filterMap resolve).map Prod.fst).isEmpty = false := by simp [hw]
  refine ⟨rfl, rfl, ?_⟩
  rw [handler_ok provider experiences start_location mode optimize route rest h0' h1 hw' hp]
  simp [resultEndLocation, mkItineraryOut]

/-- Witness for C10 at a concrete four-experience request whose provider
route reorders the interior waypoints (`waypoint_order = [2, 0, 1]`). -/
theorem c10_witness :
    (mkDirectionsRequest "S" (([Experience.raw "A", .raw "B", .raw "C", .raw "D"].filterMap
        resolve).map Prod.fst) true "driving").destination
      = (([Experience.raw "A", .raw "B", .raw "C", .raw "D"].filterMap
        resolve).map Prod.fst).getLastD "" ∧
    (mkDirectionsRequest "S" (([Experience.raw "A", .raw "B", .raw "C", .raw "D"].filterMap
        resolve).map Prod.fst) true "driving").waypoints
      = (if (([Experience.raw "A", .raw "B", .raw "C", .raw "D"].filterMap
            resolve).map Prod.fst).length > 1
         then some (([Experience.raw "A", .raw "B", .raw "C", .raw "D"].filterMap
            resolve).map Prod.fst).dropLast else none) ∧
    resultEndLocation (handle_generate_itinerary_route
        (fun _ => [⟨[⟨"11 m", 11, "1 min", 60⟩, ⟨"22 m", 22, "2 mins", 120⟩,
          ⟨"33 m", 33, "3 mins", 180⟩, ⟨"44 m", 44, "4 mins", 240⟩], [2, 0, 1]⟩])
        [.raw "A", .raw "B", .raw "C", .raw "D"] (some "S") "driving" true).1
      = (([Experience.raw "A", .raw "B", .raw "C", .raw "D"].filterMap
        resolve).map Prod.fst).getLastD "" :=
  c10_final_destination_fixed
    (fun _ => [⟨[⟨"11 m", 11, "1 min", 60⟩, ⟨"22 m", 22, "2 mins", 120⟩,
      ⟨"33 m", 33, "3 mins", 180⟩, ⟨"44 m", 44, "4 mins", 240⟩], [2, 0, 1]⟩])
    [.raw "A", .raw "B", .raw "C", .raw "D"] (some "S") "driving" true
    ⟨[⟨"11 m", 11, "1 min", 60⟩, ⟨"22 m", 22, "2 mins", 120⟩,
      ⟨"33 m", 33, "3 mins", 180⟩, ⟨"44 m", 44, "4 mins", 240⟩], [2, 0, 1]⟩ []
    (by decide) (by decide) (by decide) rfl

/-- C1: evaluation exhibiting that the handler never applies the
provider's `waypoint_order`.  With four experiences A, B, C, D and a
provider route whose `waypoint_order` is `[2, 0, 1]` (actual interior
travel order C, A, B), the returned legs still visit A, B, C, D in the
caller's input order, with the provider's leg metrics attached
positionally — while `optimized_order = [2, 0, 1]` is passed through in
the same payload. -/
theorem c1_order_never_applied :
    ((resultLegs (handle_generate_itinerary_route
        (fun _ => [⟨[⟨"11 m", 11, "1 min", 60⟩, ⟨"22 m", 22, "2 mins", 120⟩,
          ⟨"33 m", 33, "3 mins", 180⟩, ⟨"44 m", 44, "4 mins", 240⟩], [2, 0, 1]⟩])
        [.raw "A", .raw "B", .raw "C", .raw "D"] (some "S") "driving" true).1).map
      fun leg => legStr leg "destination") = ["A", "B", "C", "D"] ∧
    ((resultLegs (handle_generate_itinerary_route
        (fun _ => [⟨[⟨"11 m", 11, "1 min", 60⟩, ⟨"22 m", 22, "2 mins", 120⟩,
          ⟨"33 m", 33, "3 mins", 180⟩, ⟨"44 m", 44, "4 mins", 240⟩], [2, 0, 1]⟩])
        [.raw "A", .raw "B", .raw "C", .raw "D"] (some "S") "driving" true).1).map
      fun leg => legStr leg "experience_name") = ["A", "B", "C", "D"] ∧
    ((resultLegs (handle_generate_itinerary_route
        (fun _ => [⟨[⟨"11 m", 11, "1 min", 60⟩, ⟨"22 m", 22, "2 mins", 120⟩,
          ⟨"33 m", 33, "3 mins", 180⟩, ⟨"44 m", 44, "4 mins", 240⟩], [2, 0, 1]⟩])
        [.raw "A", .raw "B", .raw "C", .raw "D"] (some "S") "driving" true).1).map
      fun leg => legInt leg "distance_value") = [11, 22, 33, 44] ∧
    resultOptimizedOrder (handle_generate_itinerary_route
        (fun _ => [⟨[⟨"11 m", 11, "1 min", 60⟩, ⟨"22 m", 22, "2 mins", 120⟩,
          ⟨"33 m", 33, "3 mins", 180⟩, ⟨"44 m", 44, "4 mins", 240⟩], [2, 0, 1]⟩])
        [.raw "A", .raw "B", .raw "C", .raw "D"] (some "S") "driving" true).1 = [2, 0, 1] := by
  refine ⟨by decide, by decide, by decide, by decide⟩

lemma specRule_eq_happy (name cur wp dt ut link : String) :
    specCalendarDescriptionRule "Travel to" name cur wp dt ut link
      = calendarDescHappy name cur wp dt ut link := by
  unfold specCalendarDescriptionRule calendarDescHappy
  have h : ("Travel to" : String) ++ " " = "Travel to " := rfl
  rw [← h]

lemma legFollowsSpecRule_happy (name cur wp mode : String) (p : PLeg) :
    legFollowsSpecRule (happyLeg name cur wp mode p) = true := by
  simp [legFollowsSpecRule, legStr, happyLeg, lookup, specRule_eq_happy]

lemma legHasKey_happy_distance (name cur wp mode : String) (p : PLeg) :
    legHasKey (happyLeg name cur wp mode p) "distance" = true := by
  simp [legHasKey, happyLeg, lookup]

lemma fallbackLeg_fields (name cur wp mode : String) :
    legHasKey (fallbackLeg name cur wp mode) "distance" = false ∧
    legStr (fallbackLeg name cur wp mode) "calendar_description"
      = calendarDescFallback name (leg_link cur wp mode) ∧
    legStr (fallbackLeg name cur wp mode) "experience_name" = name ∧
    legStr (fallbackLeg name cur wp mode) "shareable_link" = leg_link cur wp mode := by
  refine ⟨?_, ?_, ?_, ?_⟩ <;> simp [legHasKey, legStr, fallbackLeg, lookup]

/-- C5 counterexample: with two experiences and a provider route carrying
only one leg, the second (fallback) leg's `calendar_description` is the
shortened two-line form, not the claim's single six-line rule applied to
its fields. -/
theorem c5_counterexample :
    ((resultLegs (handle_generate_itinerary_route
        (fun _ => [⟨[⟨"1.0 km", 1000, "5 mins", 300⟩], []⟩])
        [.raw "A", .raw "B"] (some "S") "driving" true).1).map legFollowsSpecRule)
      = [true, false] ∧
    ((resultLegs (handle_generate_itinerary_route
        (fun _ => [⟨[⟨"1.0 km", 1000, "5 mins", 300⟩], []⟩])
        [.raw "A", .raw "B"] (some "S") "driving" true).1).map
      fun leg => legStr leg "calendar_description").get? 1
      = some "Travel to B\nDirections: https://www.google.com/maps/dir/A/B/@?entry=ttu&mode=driving" := by
  refine ⟨by decide, by decide⟩

/-- C5 (amended): every leg that carries provider metrics has a
`calendar_description` equal to the single formatting rule with verb
"Travel to"; a leg constructed without provider metrics instead uses the
shortened form "Travel to {name}\nDirections: {link}" with no
From/To/Distance/Duration lines. -/
theorem c5_descriptions (mode : String) (plegs : List PLeg) :
    ∀ (pairs : List (String × String)) (i : Nat) (cur : String),
    ∀ leg ∈ buildLegs mode plegs i cur pairs,
      (legHasKey leg "distance" = true → legFollowsSpecRule leg = true) ∧
      (legHasKey leg "distance" = false →
        legStr leg "calendar_description" =
          calendarDescFallback (legStr leg "experience_name")
            (legStr leg "shareable_link")) := by
  intro pairs
  induction pairs with
  | nil =>
      intro i cur leg hmem
      exact absurd hmem (by simp [buildLegs])
  | cons p rest ih =>
      intro i cur leg hmem
      obtain ⟨wp, name⟩ := p
      cases hget : plegs.get? i with
      | some pl =>
          simp only [buildLegs, hget, List.mem_cons] at hmem
          rcases hmem with rfl | hmem
          · constructor
            · intro _
              exact legFollowsSpecRule_happy name cur wp mode pl
            · intro hfalse
              rw [legHasKey_happy_distance name cur wp mode pl] at hfalse
              exact absurd hfalse (by simp)
          · exact ih (i + 1) wp leg hmem
      | none =>
          simp only [buildLegs, hget, List.mem_cons] at hmem
          rcases hmem with rfl | hmem
          · constructor
            · intro htrue
              rw [(fallbackLeg_fields name cur wp mode).1] at htrue
              exact absurd htrue (by simp)
            · intro _
              rw [(fallbackLeg_fields name cur wp mode).2.1,
                (fallbackLeg_fields name cur wp mode).2.2.1,
                (fallbackLeg_fields name cur wp mode).2.2.2]
          · exact ih (i + 1) wp leg hmem

/-- Witness for C5 at a concrete fallback leg of a concrete assembly. -/
theorem c5_witness :
    (legHasKey (fallbackLeg "A" "S" "A" "driving") "distance" = true →
      legFollowsSpecRule (fallbackLeg "A" "S" "A" "driving") = true) ∧
    (legHasKey (fallbackLeg "A" "S" "A" "driving") "distance" = false →
      legStr (fallbackLeg "A" "S" "A" "driving") "calendar_description" =
        calendarDescFallback (legStr (fallbackLeg "A" "S" "A" "driving") "experience_name")
          (legStr (fallbackLeg "A" "S" "A" "driving") "shareable_link")) :=
  c5_descriptions "driving" [] [("A", "A")] 0 "S" (fallbackLeg "A" "S" "A" "driving")
    (by simp [buildLegs])

lemma maps_link_fallback_ne_empty (a b : String) :
    maps_generate_shareable_link_fallback a b ≠ "" := by
  intro h
  have hd := congrArg String.data h
  simp only [maps_generate_shareable_link_fallback, String.data_append,
    List.append_eq_nil] at hd
  exact absurd hd.1.1.1.1 (by decide)

lemma mem_mcpFallbackLegs :
    ∀ (ds : List String) (i : Nat) (cur : String) (leg : List (String × PyVal)),
    leg ∈ mcpFallbackLegs i cur ds → ∃ j c d, leg = mcpFallbackLeg j c d := by
  intro ds
  induction ds with
  | nil =>
      intro i cur leg h
      exact absurd h (by simp [mcpFallbackLegs])
  | cons d rest ih =>
      intro i cur leg h
      simp only [mcpFallbackLegs, List.mem_cons] at h
      rcases h with rfl | h
      · exact ⟨i, cur, d, rfl⟩
      · exact ih (i + 1) d leg h

/-- C2 counterexample: on the degraded path the legs carry no
`is_estimated` key at all, and the route payload carries no `is_degraded`
key (degradation is flagged as `"fallback": True` instead). -/
theorem c2_counterexample :
    ((routeLegs (maps_itinerary_route_fallback "Union Square, San Francisco, CA"
        ["Golden Gate Bridge", "Alcatraz Island", "Fisherman's Wharf"] "driving"
        "Connection refused")).map fun leg => legHasKey leg "is_estimated")
      = [false, false, false] ∧
    legHasKey (maps_itinerary_route_fallback "Union Square, San Francisco, CA"
        ["Golden Gate Bridge", "Alcatraz Island", "Fisherman's Wharf"] "driving"
        "Connection refused") "is_degraded" = false := by
  refine ⟨by decide, by decide⟩

/-- C2 (amended): when the provider call fails entirely the wrapper never
raises: it returns a route payload with exactly `n` legs, each carrying a
non-empty `shareable_link` and no `is_estimated` key, and degradation is
signalled by the route-level `"fallback": True` flag (there is no
`is_degraded` key). -/
theorem c2_degraded_route (origin mode errmsg : String) (ds : List String)
    (h : ds ≠ []) :
    (routeLegs (maps_itinerary_route_fallback origin ds mode errmsg)).length = ds.length ∧
    (∀ leg ∈ routeLegs (maps_itinerary_route_fallback origin ds mode errmsg),
      legStr leg "shareable_link" ≠ "" ∧ lookup leg "is_estimated" = none) ∧
    lookup (maps_itinerary_route_fallback origin ds mode errmsg) "fallback"
      = some (.b true) := by
  refine ⟨?_, ?_, ?_⟩
  · rw [routeLegs_mcpFallback]
    exact mcpFallbackLegs_length ds 0 origin
  · rw [routeLegs_mcpFallback]
    intro leg hmem
    obtain ⟨j, c, d, rfl⟩ := mem_mcpFallbackLegs ds 0 origin leg hmem
    constructor
    · have hlink : legStr (mcpFallbackLeg j c d) "shareable_link"
          = maps_generate_shareable_link_fallback c d := by
        simp [legStr, mcpFallbackLeg, lookup]
      rw [hlink]
      exact maps_link_fallback_ne_empty c d
    · simp [mcpFallbackLeg, lookup]
  · simp [maps_itinerary_route_fallback, lookup]

/-- Witness for C2 at the spec's degraded scenario (three destinations,
provider unavailable). -/
theorem c2_witness :
    (routeLegs (maps_itinerary_route_fallback "Union Square, San Francisco, CA"
        ["Golden Gate Bridge", "Alcatraz Island", "Fisherman's Wharf"] "driving"
        "timeout")).length
      = (["Golden Gate Bridge", "Alcatraz Island", "Fisherman's Wharf"] : List String).length ∧
    (∀ leg ∈ routeLegs (maps_itinerary_route_fallback "Union Square, San Francisco, CA"
        ["Golden Gate Bridge", "Alcatraz Island", "Fisherman's Wharf"] "driving" "timeout"),
      legStr leg "shareable_link" ≠ "" ∧ lookup leg "is_estimated" = none) ∧
    lookup (maps_itinerary_route_fallback "Union Square, San Francisco, CA"
        ["Golden Gate Bridge", "Alcatraz Island", "Fisherman's Wharf"] "driving" "timeout")
      "fallback" = some (.b true) :=
  c2_degraded_route "Union Square, San Francisco, CA" "driving" "timeout"
    ["Golden Gate Bridge", "Alcatraz Island", "Fisherman's Wharf"] (by decide)

lemma mcpFallbackLegs_get? :
    ∀ (ds : List String) (i k : Nat) (cur : String), k < ds.length →
    ∃ c d, (mcpFallbackLegs i cur ds).get? k = some (mcpFallbackLeg (i + k) c d) := by
  intro ds
  induction ds with
  | nil =>
      intro i k cur h
      exact absurd h (by simp)
  | cons dd rest ih =>
      intro i k cur h
      cases k with
      | zero => exact ⟨cur, dd, by simp [mcpFallbackLegs]⟩
      | succ k' =>
          have h' : k' < rest.length := by
            simp only [List.length_cons] at h
            omega
          obtain ⟨c, d, hcd⟩ := ih (i + 1) k' dd h'
          have hadd : i + 1 + k' = i + (k' + 1) := by omega
          rw [hadd] at hcd
          exact ⟨c, d, by simpa [mcpFallbackLegs] using hcd⟩

/-- C9: the degraded path's synthetic estimates are a pure function of the
leg index (the embedding is a function of the request inputs alone, so two
runs on the same inputs agree definitionally), they are monotone in the
index, and leg `k` of the returned payload carries exactly the rendering
of the index-`k` estimates. -/
theorem c9_estimates_monotone (origin mode errmsg : String) (ds : List String)
    (i j : Nat) (hij : i ≤ j) :
    (estDistanceVal i ≤ estDistanceVal j ∧ estDurationVal i ≤ estDurationVal j) ∧
    ∀ k, k < ds.length →
      ∃ c d, (routeLegs (maps_itinerary_route_fallback origin ds mode errmsg)).get? k
          = some (mcpFallbackLeg k c d) ∧
        legStr (mcpFallbackLeg k c d) "distance"
          = wholeFloatStr (estDistanceVal k) ++ " miles" ∧
        legStr (mcpFallbackLeg k c d) "duration"
          = toString (estDurationVal k) ++ " mins" := by
  constructor
  · exact ⟨by unfold estDistanceVal; omega, by unfold estDurationVal; omega⟩
  · intro k hk
    rw [routeLegs_mcpFallback]
    obtain ⟨c, d, hcd⟩ := mcpFallbackLegs_get? ds 0 k origin hk
    refine ⟨c, d, by simpa using hcd, ?_, ?_⟩ <;> simp [legStr, mcpFallbackLeg, lookup]

/-- Witness for C9 at a concrete two-destination degraded route and
indices 0 ≤ 1. -/
theorem c9_witness :
    (estDistanceVal 0 ≤ estDistanceVal 1 ∧ estDurationVal 0 ≤ estDurationVal 1) ∧
    ∀ k, k < (["Golden Gate Bridge", "Alcatraz Island"] : List String).length →
      ∃ c d, (routeLegs (maps_itinerary_route_fallback "Union Square"
          ["Golden Gate Bridge", "Alcatraz Island"] "driving" "timeout")).get? k
          = some (mcpFallbackLeg k c d) ∧
        legStr (mcpFallbackLeg k c d) "distance"
          = wholeFloatStr (estDistanceVal k) ++ " miles" ∧
        legStr (mcpFallbackLeg k c d) "duration"
          = toString (estDurationVal k) ++ " mins" :=
  c9_estimates_monotone "Union Square" "driving" "timeout"
    ["Golden Gate Bridge", "Alcatraz Island"] 0 1 (by decide)

/-- Witness for C3 at a concrete one-experience request with a concrete
provider route. -/
theorem c3_witness :
    (∃ out, (handle_generate_itinerary_route
        (fun _ => [⟨[⟨"1.0 km", 1000, "10 mins", 600⟩], []⟩])
        [.raw "Golden Gate Bridge"] (some "Union Square") "driving" true).1 = .ok out ∧
      out.legs.length = ([Experience.raw "Golden Gate Bridge"].filterMap resolve).length ∧
      legsChained "Union Square" out.legs) ∧
    (∀ (origin m e : String) (ds : List String),
      (routeLegs (maps_itinerary_route_fallback origin ds m e)).length = ds.length ∧
      legsChained origin (routeLegs (maps_itinerary_route_fallback origin ds m e))) := by
  have h := c3_leg_count_and_chaining
    (fun _ => [⟨[⟨"1.0 km", 1000, "10 mins", 600⟩], []⟩])
    [.raw "Golden Gate Bridge"] (some "Union Square") "driving" true
    ⟨[⟨"1.0 km", 1000, "10 mins", 600⟩], []⟩ []
    (by decide) (by decide) (by decide) rfl
  exact h

end ItinMaps
